import Mathlib

/-!
Shallow embedding of the Cypress TrueTouch Standard Product V4 core driver
(`drivers/input/touchscreen/cyttsp4_core.c`) and proofs about it.

Machine integers are modelled as `Nat` with explicit masking where the C code
relies on the width of the type.  The register-layout header
(`cyttsp4_regs.h`) is not part of the provided sources; the handful of bit
masks and small constants taken from it are collected below and marked as
modelled.  All control flow is translated from the `.c` source.
-/

namespace Cyttsp4

/-! ## Error codes (Linux errno values, as returned negated by the driver) -/

def EIO : Int := 5
def ENOMEM : Int := 12
def EACCES : Int := 13
def EBUSY : Int := 16
def ENODEV : Int := 19
def EINVAL : Int := 22
def ETIME : Int := 62

/-! ## Register-level constants

Modelled from the spec: the register header `cyttsp4_regs.h` is not in the
provided sources.  The spec describes a host-status byte at base address 0
with device-mode bits, a mode-change marker, a sleep bit and a low-power
toggle bit, and a command byte whose top bits are reserved for
completion/toggle while the opcode occupies the low bits.  Concrete bit
positions follow the standard TTSP4 layout; no theorem below depends on the
particular values, only on the constants being fixed. -/

def CY_REG_BASE : Nat := 0
def CY_REG_CAT_CMD : Nat := 2
def CY_HST_TOGGLE : Nat := 0x80
def CY_HST_MODE_CHANGE : Nat := 0x08
def CY_CMD_COMPLETE_MASK : Nat := 0x40
def CY_CMD_MASK : Nat := 0x3F

/-- Modelled from the spec: `GET_TOGGLE` extracts the toggle bit of the
command byte (absent register header). -/
def GET_TOGGLE (x : Nat) : Nat := x &&& CY_HST_TOGGLE

/-- `int_status` bits (absent register header; values are immaterial to the
theorems, each flag is a distinct bit). -/
def CY_INT_IGNORE : Nat := 1
def CY_INT_MODE_CHANGE : Nat := 2
def CY_INT_EXEC_CMD : Nat := 4
def CY_INT_AWAKE : Nat := 8

/-! ## Modes -/

/-- `enum cyttsp4_mode` (the values used by the translated code). -/
inductive CyMode where
  | unknown
  | bootloader
  | operational
  | sysinfo
  | cat
  deriving DecidableEq, Repr

/-! ## Bus adapter

`cyttsp4_adap_read`/`cyttsp4_adap_write` forward to the bus transport.  The
transport is modelled as a perfect register file `Nat → Nat` together with a
log of the transactions performed, so that theorems can talk about which bus
operations a code path performs. -/

inductive BusOp where
  | readOp (addr len : Nat)
  | writeOp (addr : Nat) (bytes : List Nat)
  deriving DecidableEq, Repr

/-- The mutable per-core state (`struct cyttsp4_core_data`) restricted to the
fields used by the translated functions, plus the device register file and
the bus log. -/
structure CoreData where
  mode : CyMode
  intStatus : Nat
  cmdToggle : Nat
  /-- `si->si_ofs.cmd_ofs` -/
  siCmdOfs : Nat
  regs : Nat → Nat
  log : List BusOp

/-- `cyttsp4_adap_read`: read `len` bytes starting at `addr`. -/
def adapRead (cd : CoreData) (addr len : Nat) : List Nat × CoreData :=
  ((List.range len).map (fun i => cd.regs (addr + i)),
   { cd with log := cd.log ++ [BusOp.readOp addr len] })

/-- `cyttsp4_adap_write`: write `bytes` starting at `addr`. -/
def adapWrite (cd : CoreData) (addr : Nat) (bytes : List Nat) : CoreData :=
  { cd with
    regs := fun a =>
      if _h : addr ≤ a ∧ a < addr + bytes.length then
        bytes.getD (a - addr) 0
      else cd.regs a,
    log := cd.log ++ [BusOp.writeOp addr bytes] }

/-! ## Handshake (`cyttsp4_handshake`) -/

/-- `cyttsp4_handshake`: acknowledge an interrupt by writing the observed
host-mode byte with its toggle bit flipped, unless the mode-change bit is
set, in which case nothing is written. -/
def cyttsp4_handshake (cd : CoreData) (mode : Nat) : Int × CoreData :=
  if mode &&& CY_HST_MODE_CHANGE ≠ 0 then
    (0, cd)
  else
    (0, adapWrite cd CY_REG_BASE [mode ^^^ CY_HST_TOGGLE])

/-! ## CRC (`cyttsp4_calc_partial_app_crc` / `cyttsp4_calc_app_crc`)

CRC-16/CCITT-FALSE.  `crc` is a `u16`; the left shift is masked to 16 bits. -/

/-- One iteration of the inner `for (j = 8; j > 0; j--)` loop body. -/
def crcShift (crc : Nat) : Nat :=
  if crc &&& 0x8000 ≠ 0 then ((crc <<< 1) % 65536) ^^^ 0x1021
  else (crc <<< 1) % 65536

/-- Body of the outer loop of `cyttsp4_calc_partial_app_crc`: fold in one
data byte then run the shift loop eight times. -/
def crcByte (crc b : Nat) : Nat :=
  crcShift^[8] (crc ^^^ ((b % 256) <<< 8))

/-- `cyttsp4_calc_partial_app_crc` -/
def cyttsp4_calc_partial_app_crc (data : List Nat) (crc : Nat) : Nat :=
  data.foldl crcByte crc

/-- `cyttsp4_calc_app_crc` -/
def cyttsp4_calc_app_crc (data : List Nat) : Nat :=
  cyttsp4_calc_partial_app_crc data 0xFFFF

/-! ## Touch field decoding (`cyttsp4_get_touch_axis`, `cyttsp4_bits_2_bytes`) -/

/-- `cyttsp4_bits_2_bytes`: returns the byte count `(nbits + 7) / 8` of a
field and sets `*max` to `1 << nbits`. -/
def cyttsp4_bits_2_bytes (nbits : Nat) : Nat × Nat :=
  ((nbits + 7) / 8, 1 <<< nbits)

/-- `cyttsp4_get_touch_axis`: accumulate `size` consecutive bytes (big
endian), shifting each byte right by the bit offset `bofs`, then mask with
`max - 1`.  The C loop indexes `xy_data[0..size-1]`. -/
def cyttsp4_get_touch_axis (size max : Nat) (xy_data : List Nat) (bofs : Nat) : Nat :=
  ((List.range size).foldl
    (fun axis nbyte => axis * 256 + (xy_data.getD nbyte 0 >>> bofs)) 0) &&& (max - 1)

/-- Modelled from the spec: the reference encoding of a touch field.  The
encode direction is performed by the device, not by the driver source; the
spec describes the layout as a field of `bits` width stored in
`ceil(bits/8)` consecutive bytes at a bit offset, so the reference encoding
stores the big-endian bytes of `v <<< bofs` (each byte truncated to 8
bits). -/
def touchFieldEncode (nbits bofs v : Nat) : List Nat :=
  let size := (nbits + 7) / 8
  (List.range size).map (fun i => ((v <<< bofs) >>> (8 * (size - 1 - i))) % 256)

/-- Decoding as the driver does it, with size and max obtained from
`cyttsp4_bits_2_bytes`. -/
def touchFieldDecode (nbits bofs : Nat) (bytes : List Nat) : Nat :=
  cyttsp4_get_touch_axis (cyttsp4_bits_2_bytes nbits).1
    (cyttsp4_bits_2_bytes nbits).2 bytes bofs

/-! ## Mode-change and command waits

The driver blocks on `wait_event_timeout` conditions that only the interrupt
router satisfies.  The router's concurrent action is modelled by a boolean
oracle: `true` means the router resolves the condition before the timeout
elapses, `false` means the bounded wait elapses. -/

/-- Further host-mode constants (absent register header, standard layout). -/
def CY_HST_DEVICE_MODE : Nat := 0x70
def CY_HST_OPERATE : Nat := 0x00
def CY_HST_SYSINFO : Nat := 0x10
def CY_HST_CAT : Nat := 0x20

/-- `_cyttsp4_wait_cmd_exec`: block until the router clears
`CY_INT_EXEC_CMD`; on timeout clear the flag locally and return `-ETIME`. -/
def _cyttsp4_wait_cmd_exec (cd : CoreData) (routerClears : Bool) : Int × CoreData :=
  if cd.intStatus &&& CY_INT_EXEC_CMD = 0 then (0, cd)
  else if routerClears then
    (0, { cd with intStatus := Nat.ldiff cd.intStatus CY_INT_EXEC_CMD })
  else
    (-ETIME, { cd with intStatus := Nat.ldiff cd.intStatus CY_INT_EXEC_CMD })

/-- `cyttsp4_wait_sysinfo_mode`: block until the router has switched
`cd->mode` to SysInfo; on timeout force-clear `CY_INT_MODE_CHANGE` and
return `-ETIME`.  When the router completes the switch it also clears the
flag itself (`cyttsp4_irq`, mode-change branch). -/
def cyttsp4_wait_sysinfo_mode (cd : CoreData) (routerSetsSysinfo : Bool) :
    Int × CoreData :=
  if cd.mode = CyMode.sysinfo then (0, cd)
  else if routerSetsSysinfo then
    (0, { cd with mode := CyMode.sysinfo,
                  intStatus := Nat.ldiff cd.intStatus CY_INT_MODE_CHANGE })
  else
    (-ETIME, { cd with intStatus := Nat.ldiff cd.intStatus CY_INT_MODE_CHANGE })

/-- `set_mode`: reject invalid targets; read the host-status byte, replace
the device-mode bits with the target and set the mode-change marker, write
it back with `CY_INT_MODE_CHANGE` pending, then wait for the router to
complete the change.  On timeout, force-clear the pending flag and return
`-EINVAL`. -/
def set_mode (cd : CoreData) (new_mode : CyMode) (routerCompletes : Bool) :
    Int × CoreData :=
  match (match new_mode with
         | CyMode.operational => some CY_HST_OPERATE
         | CyMode.sysinfo => some CY_HST_SYSINFO
         | CyMode.cat => some CY_HST_CAT
         | _ => none) with
  | none => (-EINVAL, cd)
  | some new_dev_mode =>
    let r := adapRead cd CY_REG_BASE 1
    let m := r.1.getD 0 0
    let m := (Nat.ldiff m CY_HST_DEVICE_MODE) ||| new_dev_mode ||| CY_HST_MODE_CHANGE
    let cd := { r.2 with intStatus := r.2.intStatus ||| CY_INT_MODE_CHANGE }
    let cd := adapWrite cd CY_REG_BASE [m]
    if routerCompletes then
      (0, { cd with mode := new_mode,
                    intStatus := Nat.ldiff cd.intStatus CY_INT_MODE_CHANGE })
    else
      (-EINVAL, { cd with intStatus := Nat.ldiff cd.intStatus CY_INT_MODE_CHANGE })

/-! ## Command executor (`_cyttsp4_exec_cmd` / `cyttsp4_exec_cmd`) -/

/-- `_get_cmd_offs`: command register offset for the given mode; modes
without a command interface yield `-EACCES`. -/
def _get_cmd_offs (cd : CoreData) (mode : CyMode) : Except Int Nat :=
  match mode with
  | CyMode.cat => Except.ok CY_REG_CAT_CMD
  | CyMode.operational => Except.ok cd.siCmdOfs
  | _ => Except.error (-EACCES)

/-- `_cyttsp4_exec_cmd`: refuse a mode mismatch with `-EACCES`; read the
1-byte command-status register, record the toggle bit and arm
`CY_INT_EXEC_CMD`; if the completion bit is clear report `-EBUSY`;
otherwise write the parameter bytes (when present) at `cmd_ofs + 1` and the
masked opcode at `cmd_ofs`. -/
def _cyttsp4_exec_cmd (cd : CoreData) (mode : CyMode) (cmd_buf : List Nat) :
    Int × CoreData :=
  if mode ≠ cd.mode then (-EACCES, cd)
  else
    match _get_cmd_offs cd mode with
    | Except.error _ => (-EACCES, cd)
    | Except.ok cmd_ofs =>
      let r := adapRead cd cmd_ofs 1
      let command := r.1.getD 0 0
      let cd := { r.2 with cmdToggle := GET_TOGGLE command,
                           intStatus := r.2.intStatus ||| CY_INT_EXEC_CMD }
      if command &&& CY_CMD_COMPLETE_MASK = 0 then (-EBUSY, cd)
      else
        let cmd0 := cmd_buf.getD 0 0 &&& CY_CMD_MASK
        let cd := if cmd_buf.length > 1 then
            adapWrite cd (cmd_ofs + 1) cmd_buf.tail
          else cd
        (0, adapWrite cd cmd_ofs [cmd0])

/-- Environment of one `cyttsp4_exec_cmd` call: what the interrupt router
and the device do while the executor is blocked. -/
structure ExecEnv where
  /-- the router resolves the busy wait before its timeout -/
  busyRouterClears : Bool
  /-- evolution of the device registers while the executor is blocked in
  the busy wait (the device finishing the previous command) -/
  busyRegs : (Nat → Nat) → (Nat → Nat)
  /-- the router resolves the command-complete wait before its timeout -/
  cmdRouterClears : Bool

/-- `cyttsp4_exec_cmd`: run `_cyttsp4_exec_cmd`; on `-EBUSY` wait for the
router-resolved completion condition and retry exactly once; then (unless
`timeout_ms` is zero) wait for command completion and, when a non-zero
response length is requested, read the response starting at
`cmd_ofs + 1`. -/
def cyttsp4_exec_cmd (cd : CoreData) (mode : CyMode) (cmd_buf : List Nat)
    (return_buf_size timeout_ms : Nat) (env : ExecEnv) :
    Int × List Nat × CoreData :=
  let r1 := _cyttsp4_exec_cmd cd mode cmd_buf
  let r2 : Int × CoreData :=
    if r1.1 = -EBUSY then
      let w := _cyttsp4_wait_cmd_exec r1.2 env.busyRouterClears
      if w.1 ≠ 0 then w
      else _cyttsp4_exec_cmd { w.2 with regs := env.busyRegs w.2.regs } mode cmd_buf
    else r1
  if r2.1 < 0 then (r2.1, [], r2.2)
  else if timeout_ms = 0 then (0, [], r2.2)
  else
    let w2 := _cyttsp4_wait_cmd_exec r2.2 env.cmdRouterClears
    if w2.1 < 0 then (w2.1, [], w2.2)
    else if return_buf_size = 0 then (0, [], w2.2)
    else
      match _get_cmd_offs w2.2 mode with
      | Except.error _ => (-EACCES, [], w2.2)
      | Except.ok cmd_ofs =>
        let r3 := adapRead w2.2 (cmd_ofs + 1) return_buf_size
        (0, r3.1, r3.2)

/-! ## Exclusive access arbiter (`request_exclusive` / `release_exclusive`)

`request_exclusive` blocks inside `wait_event_timeout`; its behaviour is
modelled as a transition system whose events are the atomic
`system_lock`-protected sections of the C code.  A full `request_exclusive`
call is one `tryAcquire` followed, when it blocked, by any number of
`wakeRecheck` events (each wake of the freed condition) and at most one
`timeoutEv` (the bounded wait elapsing). -/

/-- The arbiter's shared state: `cd->exclusive_dev` (callers are identified
by numbers, `none` is `NULL`) and `cd->exclusive_waits`. -/
structure ArbState where
  exclusive_dev : Option Nat
  exclusive_waits : Nat
  deriving DecidableEq, Repr

inductive ArbEvent where
  /-- the entry section of `request_exclusive` -/
  | tryAcquire (o : Nat)
  /-- a blocked waiter wakes and rechecks under the lock
  (`if (cd->exclusive_dev) goto wait;`) -/
  | wakeRecheck (o : Nat)
  /-- a blocked waiter's bounded wait elapses (`IS_TMO`) -/
  | timeoutEv (o : Nat)
  /-- `release_exclusive` -/
  | release (o : Nat)
  deriving DecidableEq, Repr

inductive ArbOutcome where
  /-- `request_exclusive` returns 0 holding the token -/
  | acquired
  /-- the caller incremented `exclusive_waits` and blocks -/
  | blocked
  /-- the recheck found the token taken again; the caller waits on -/
  | stillBlocked
  /-- `request_exclusive` returns `-ETIME` -/
  | timedOut
  /-- `release_exclusive` returns 0 -/
  | released
  /-- `release_exclusive` returns `-EINVAL` (caller is not the holder) -/
  | notOwner
  deriving DecidableEq, Repr

/-- One atomic step of the arbiter, translated from `request_exclusive`
and `release_exclusive`. -/
def arbStep (st : ArbState) : ArbEvent → ArbState × ArbOutcome
  | ArbEvent.tryAcquire o =>
    if st.exclusive_dev = none ∧ st.exclusive_waits = 0 then
      ({ st with exclusive_dev := some o }, ArbOutcome.acquired)
    else
      ({ st with exclusive_waits := st.exclusive_waits + 1 }, ArbOutcome.blocked)
  | ArbEvent.wakeRecheck o =>
    match st.exclusive_dev with
    | some _ => (st, ArbOutcome.stillBlocked)
    | none =>
      ({ exclusive_dev := some o, exclusive_waits := st.exclusive_waits - 1 },
       ArbOutcome.acquired)
  | ArbEvent.timeoutEv _ =>
    ({ st with exclusive_waits := st.exclusive_waits - 1 }, ArbOutcome.timedOut)
  | ArbEvent.release o =>
    if st.exclusive_dev = some o then
      ({ st with exclusive_dev := none }, ArbOutcome.released)
    else (st, ArbOutcome.notOwner)

/-! ## Interrupt router, bootloader branch (`cyttsp4_irq`, lines 1196-1236)
and deferred restart (`cyttsp4_queue_startup`) -/

/-- `enum cyttsp4_startup_state` -/
inductive StartupState where
  | stNone
  | stQueued
  | stRunning
  deriving DecidableEq, Repr

/-- The state touched by the router's bootloader branch, plus a ghost
counter of how many times `schedule_work(&cd->startup_work)` was invoked
(used to express "deferred restart triggered exactly once"). -/
structure IrqState where
  mode : CyMode
  heartbeatCount : Nat
  startupState : StartupState
  startupWorkScheduled : Nat
  deriving DecidableEq, Repr

/-- `cyttsp4_queue_startup`: schedule the deferred startup work only when
no startup is queued or running. -/
def cyttsp4_queue_startup (st : IrqState) : IrqState :=
  if st.startupState = StartupState.stNone then
    { st with startupState := StartupState.stQueued,
              startupWorkScheduled := st.startupWorkScheduled + 1 }
  else st

/-- The `IS_BOOTLOADER` branch of `cyttsp4_irq`.  `isIdle` is
`IS_BOOTLOADER_IDLE(mode[0], mode[1])` (the predicate lives in the absent
register header; the branch only uses its truth value).  The attention
callbacks and the `wake_up` are external effects with no bearing on this
state. -/
def cyttsp4_irq_bootloader (st : IrqState) (isIdle : Bool) : IrqState :=
  -- switch to bootloader: reset the heartbeat counter
  let st := if st.mode ≠ CyMode.bootloader then { st with heartbeatCount := 0 }
            else st
  -- catch operation->bl glitch
  if st.mode ≠ CyMode.bootloader ∧ st.mode ≠ CyMode.unknown then
    cyttsp4_queue_startup { st with mode := CyMode.unknown }
  else
    -- recover if stuck in bootloader idle mode
    if st.mode = CyMode.bootloader ∧ isIdle = true then
      if st.heartbeatCount > 3 then
        cyttsp4_queue_startup { st with heartbeatCount := 0 }
      else
        { st with heartbeatCount := st.heartbeatCount + 1,
                  mode := CyMode.bootloader }
    else
      { st with mode := CyMode.bootloader }

/-- `n` consecutive bootloader-idle interrupt occurrences. -/
def irqIdleIter (st : IrqState) (n : Nat) : IrqState :=
  (fun s => cyttsp4_irq_bootloader s true)^[n] st

/-! ## Config codec (`cyttsp4_write_config_common` / `cyttsp4_write_config`)

The row operations are `cyttsp4_read_config_block` and
`cyttsp4_write_config_block` calls; the trace records the row number and
transfer length of each (the `ebid` is fixed per call and the data bytes do
not matter to the claims). -/

inductive CfgOp where
  | readBlk (row len : Nat)
  | writeBlk (row len : Nat)
  deriving DecidableEq, Repr

/-- Body of the `while (cur_block < end_block)` loop of
`cyttsp4_write_config_common`, structurally recursive on the iteration
count `end_block - cur_block`: each pass writes one whole row of
`rowSize` bytes and advances `cur_block`.  Returns the operations and the
final `cur_block`. -/
def writeMiddleRowsGo (rowSize : Nat) : Nat → Nat → List CfgOp × Nat
  | 0, cb => ([], cb)
  | n + 1, cb =>
    let r := writeMiddleRowsGo rowSize n (cb + 1)
    (CfgOp.writeBlk cb rowSize :: r.1, r.2)

/-- The middle-row loop, entered at `cur_block` and running while
`cur_block < end_block`. -/
def writeMiddleRows (curBlock endBlock rowSize : Nat) : List CfgOp × Nat :=
  writeMiddleRowsGo rowSize (endBlock - curBlock) curBlock

/-- `cyttsp4_write_config_common` as the sequence of config-block
operations it performs.  An unaligned start (`cur_off ≠ 0`) first reads the
preserved prefix of the row (`cur_off` bytes) and writes back
`cur_off + copy_len` bytes; whole middle rows follow; the final row is
written with `end_off` bytes when the loop counter reaches `end_block`. -/
def cyttsp4_write_config_common (rowSize offset length : Nat) : List CfgOp :=
  let curBlock := offset / rowSize
  let curOff := offset % rowSize
  let endBlock := (offset + length) / rowSize
  let endOff := (offset + length) % rowSize
  let first : List CfgOp × Nat :=
    if curOff = 0 then ([], curBlock)
    else
      let copyLen := if curBlock = endBlock then length else rowSize - curOff
      ([CfgOp.readBlk curBlock curOff,
        CfgOp.writeBlk curBlock (curOff + copyLen)], curBlock + 1)
  let middle := writeMiddleRows first.2 endBlock rowSize
  let lastOps := if middle.2 = endBlock then [CfgOp.writeBlk endBlock endOff]
                 else []
  first.1 ++ middle.1 ++ lastOps

/-- Events of a full `cyttsp4_write_config` call. -/
inductive CfgEvent where
  | rowOp (op : CfgOp)
  | getLength
  | verifyCrc
  deriving DecidableEq, Repr

/-- `cyttsp4_write_config`: refuse when the descriptor is not ready; fetch
the config length and stored-CRC offset; bounds-check; perform the row
writes; execute the verify-config-block-CRC command (the device returns the
recomputed `crcNew` and stored `crcOld`); rewrite the stored CRC field
(2 bytes at `crcOffset`) only when the two differ. -/
def cyttsp4_write_config (ready : Bool)
    (rowSize offset length crcOffset crcNew crcOld : Nat) :
    Int × List CfgEvent :=
  if ready = false then (-ENODEV, [])
  else if offset + length > crcOffset + 2 then (-EINVAL, [CfgEvent.getLength])
  else
    let ops := (cyttsp4_write_config_common rowSize offset length).map
      CfgEvent.rowOp
    if crcNew = crcOld then
      (0, CfgEvent.getLength :: ops ++ [CfgEvent.verifyCrc])
    else
      (0, CfgEvent.getLength :: ops ++ [CfgEvent.verifyCrc] ++
        (cyttsp4_write_config_common rowSize crcOffset 2).map CfgEvent.rowOp)

/-! ## Startup protocol (`cyttsp4_startup_`)

The protocol drives external steps (reset, loader exit, waits, descriptor
load, mode switch, configuration); each step's outcome is supplied by an
environment indexed by the attempt number.  `RETRY_OR_EXIT(retry--, reset,
exit)` jumps back to the `reset` label while the retry counter is non-zero
and decrements it, so the counter is the recursion fuel. -/

/-- `ldr_err_app`: the fixed error signature the bootloader leaves at the
base register when the touch application is invalid/corrupted. -/
def ldr_err_app : List Nat := [0x01, 0x02, 0x00, 0x00, 0x55, 0xDD, 0x17]

/-- Outcomes of the startup steps for each attempt (`0` success, negative
the step's error code), as produced by the device and bus. -/
structure StartupEnv where
  /-- `cyttsp4_reset_and_wait` -/
  resetRc : Nat → Int
  /-- `_cyttsp4_ldr_exit` -/
  ldrExitRc : Nat → Int
  /-- whether `cyttsp4_wait_sysinfo_mode` sees SysInfo before its timeout -/
  sysinfoReached : Nat → Bool
  /-- the `sizeof(ldr_err_app)`-byte read at `CY_REG_BASE` performed after
  a sysinfo-wait timeout (`none` = bus error) -/
  baseRead : Nat → Option (List Nat)
  /-- `cyttsp4_get_sysinfo_regs` -/
  getSysinfoRc : Nat → Int
  /-- `set_mode(cd, CY_MODE_OPERATIONAL)` -/
  setModeOpRc : Nat → Int
  /-- initial scan-type / proximity configuration -/
  scantypeRc : Nat → Int
  /-- `cyttsp4_get_ttconfig_info` -/
  ttconfigRc : Nat → Int
  /-- `cyttsp4_get_active_refresh_cycle` (a failure is logged but neither
  retried nor overwritten) -/
  refreshRc : Nat → Int

/-- Result of `cyttsp4_startup_`: its return code, the persistent
`cd->invalid_touch_app` fault flag, the local `detected` flag, and the
number of reset attempts performed. -/
structure StartupResult where
  rc : Int
  invalidTouchApp : Bool
  detected : Bool
  resets : Nat
  deriving DecidableEq, Repr

/-- One pass of `cyttsp4_startup_`'s body from the `reset` label.
`Sum.inl (detected, invApp, rc)` means a step failed and reached
`RETRY_OR_EXIT`; `Sum.inr r` means the pass returned without consulting
the retry counter (success, or the corrupted-application short circuit
`goto exit_no_wd`). -/
def cyttsp4_startup_attempt (env : StartupEnv) (attempt : Nat)
    (detected invApp : Bool) : (Bool × Bool × Int) ⊕ StartupResult :=
  let rc0 := env.resetRc attempt
  if rc0 < 0 then Sum.inl (detected, invApp, rc0)
  else
    let rc1 := env.ldrExitRc attempt
    if rc1 < 0 then Sum.inl (true, invApp, rc1)
    else if env.sysinfoReached attempt then
      let rc2 := env.getSysinfoRc attempt
      if rc2 < 0 then Sum.inl (true, false, rc2)
      else
        let rc3 := env.setModeOpRc attempt
        if rc3 < 0 then Sum.inl (true, false, rc3)
        else
          let rc4 := env.scantypeRc attempt
          if rc4 < 0 then Sum.inl (true, false, rc4)
          else
            let rc5 := env.ttconfigRc attempt
            if rc5 < 0 then Sum.inl (true, false, rc5)
            else Sum.inr ⟨env.refreshRc attempt, false, true, attempt + 1⟩
    else
      -- sysinfo wait timed out (-ETIME); check for the corrupted
      -- application signature at the base register
      match env.baseRead attempt with
      | none => Sum.inl (true, invApp, -ETIME)
      | some buf =>
        if buf = ldr_err_app then Sum.inr ⟨-ETIME, true, true, attempt + 1⟩
        else Sum.inl (true, invApp, -ETIME)

/-- The retry loop of `cyttsp4_startup_`: on a failed step, retry while
the counter is non-zero, otherwise exit with the step's error (`-ENODEV`
when the device was never detected). -/
def cyttsp4_startup_go (env : StartupEnv) :
    Nat → Nat → Bool → Bool → StartupResult
  | 0, attempt, detected, invApp =>
    match cyttsp4_startup_attempt env attempt detected invApp with
    | Sum.inl (det, inv, rc) =>
      ⟨if det then rc else -ENODEV, inv, det, attempt + 1⟩
    | Sum.inr r => r
  | retry + 1, attempt, detected, invApp =>
    match cyttsp4_startup_attempt env attempt detected invApp with
    | Sum.inl (det, inv, _) => cyttsp4_startup_go env retry (attempt + 1) det inv
    | Sum.inr r => r

/-- `cyttsp4_startup_` with `CY_CORE_STARTUP_RETRY_COUNT = 3` retries;
`invApp` is the incoming `cd->invalid_touch_app` value. -/
def cyttsp4_startup_ (env : StartupEnv) (invApp : Bool) : StartupResult :=
  cyttsp4_startup_go env 3 0 false invApp

end Cyttsp4

namespace Cyttsp4

/-! ## Theorems -/

/-- C7: the config-block CRC is deterministic (it is a function of its
input) and composes over concatenation: for all byte sequences `A` and `B`,
`crc (A ++ B) = crc_partial B (crc_partial A init)` with `init = 0xFFFF`. -/
theorem crc_concat_compose (A B : List Nat) :
    cyttsp4_calc_app_crc (A ++ B) =
      cyttsp4_calc_partial_app_crc B (cyttsp4_calc_partial_app_crc A 0xFFFF) := by
  unfold cyttsp4_calc_app_crc cyttsp4_calc_partial_app_crc
  exact List.foldl_append ..

/-- C10: if the observed header byte has the mode-change bit set, the
handshake performs no bus write at all and returns success; otherwise it
issues exactly one write of the header byte with the toggle bit flipped. -/
theorem handshake_mode_change_no_write (cd : CoreData) (mode : Nat) :
    (mode &&& CY_HST_MODE_CHANGE ≠ 0 →
      cyttsp4_handshake cd mode = (0, cd)) ∧
    (mode &&& CY_HST_MODE_CHANGE = 0 →
      (cyttsp4_handshake cd mode).1 = 0 ∧
      (cyttsp4_handshake cd mode).2.log =
        cd.log ++ [BusOp.writeOp CY_REG_BASE [mode ^^^ CY_HST_TOGGLE]]) := by
  constructor
  · intro h
    simp [cyttsp4_handshake, h]
  · intro h
    simp [cyttsp4_handshake, h, adapWrite]

/-- Big-endian byte reconstruction: folding the base-256 digits of `u`
(most significant first) onto accumulator `a` yields `a * 256 ^ s` plus `u`
modulo `256 ^ s`. -/
theorem foldRange_beBytes_from (s : Nat) : ∀ u a : Nat,
    (List.range s).foldl
      (fun acc i => acc * 256 + (u >>> (8 * (s - 1 - i))) % 256) a
      = a * 256 ^ s + u % 256 ^ s := by
  induction s with
  | zero => intro u a; simp [Nat.mod_one]
  | succ s ih =>
    intro u a
    rw [List.range_succ_eq_map, List.foldl_cons, List.foldl_map]
    rw [List.foldl_ext _ (fun acc i => acc * 256 + (u >>> (8 * (s - 1 - i))) % 256)
      _ (by
        intro acc b _hb
        have h : s + 1 - 1 - Nat.succ b = s - 1 - b := by omega
        rw [h])]
    rw [ih]
    have h1 : u >>> (8 * s) = u / 256 ^ s := by
      rw [Nat.shiftRight_eq_div_pow, show (256 : Nat) = 2 ^ 8 by norm_num,
        ← Nat.pow_mul]
    have h2 : u % 256 ^ (s + 1) = u % 256 ^ s + 256 ^ s * (u / 256 ^ s % 256) := by
      rw [pow_succ, Nat.mod_mul]
    have h3 : s + 1 - 1 - 0 = s := by omega
    rw [h3, h1, h2, pow_succ]
    ring

/-- The `getD` lookups that `cyttsp4_get_touch_axis` performs on an encoded
buffer resolve to the encoded bytes. -/
theorem touchFieldEncode_getD (nbits bofs v i : Nat)
    (hi : i < (nbits + 7) / 8) :
    (touchFieldEncode nbits bofs v).getD i 0 =
      ((v <<< bofs) >>> (8 * ((nbits + 7) / 8 - 1 - i))) % 256 := by
  unfold touchFieldEncode
  rw [List.getD_eq_getElem?_getD, List.getElem?_map, List.getElem?_range hi]
  rfl

/-- C6 (amended): decoding inverts the reference encoding for every value
in `[0, 2^bits)` when the bit offset is zero, or when offset and width fit
together in a single byte (`bits + bofs ≤ 8`). -/
theorem touch_decode_encode_roundtrip (nbits bofs v : Nat) (hv : v < 2 ^ nbits)
    (hlay : bofs = 0 ∨ nbits + bofs ≤ 8) :
    touchFieldDecode nbits bofs (touchFieldEncode nbits bofs v) = v := by
  unfold touchFieldDecode cyttsp4_get_touch_axis cyttsp4_bits_2_bytes
  simp only
  have hmask : ∀ w : Nat, w &&& (1 <<< nbits - 1) = w % 2 ^ nbits := by
    intro w
    rw [Nat.one_shiftLeft]
    exact Nat.and_pow_two_sub_one_eq_mod w nbits
  rcases hlay with h0 | h8
  · subst h0
    rw [List.foldl_ext _
      (fun acc i => acc * 256 + (v >>> (8 * ((nbits + 7) / 8 - 1 - i))) % 256)
      _ (by
        intro acc i hi
        rw [List.mem_range] at hi
        rw [touchFieldEncode_getD nbits 0 v i hi, Nat.shiftLeft_zero,
          Nat.shiftRight_zero])]
    rw [foldRange_beBytes_from]
    have hle : 2 ^ nbits ≤ 256 ^ ((nbits + 7) / 8) := by
      have h256 : (256 : Nat) ^ ((nbits + 7) / 8) = 2 ^ (8 * ((nbits + 7) / 8)) := by
        rw [show (256 : Nat) = 2 ^ 8 by norm_num, ← Nat.pow_mul]
      rw [h256]
      exact Nat.pow_le_pow_right (by norm_num) (by omega)
    rw [Nat.zero_mul, Nat.zero_add, Nat.mod_eq_of_lt (lt_of_lt_of_le hv hle),
      hmask, Nat.mod_eq_of_lt hv]
  · rcases Nat.eq_zero_or_pos nbits with hz | hpos
    · subst hz
      interval_cases v
      simp [touchFieldEncode]
    · have hs : (nbits + 7) / 8 = 1 := by omega
      rw [hs]
      have henc : (touchFieldEncode nbits bofs v).getD 0 0 = v <<< bofs := by
        have h0 := touchFieldEncode_getD nbits bofs v 0 (by omega)
        rw [hs] at h0
        rw [h0]
        norm_num
        calc v <<< bofs = v * 2 ^ bofs := Nat.shiftLeft_eq v bofs
          _ < 2 ^ nbits * 2 ^ bofs :=
              Nat.mul_lt_mul_of_lt_of_le hv (le_refl _) (pow_pos (by norm_num) bofs)
          _ = 2 ^ (nbits + bofs) := by rw [← pow_add]
          _ ≤ 2 ^ 8 := Nat.pow_le_pow_right (by norm_num) h8
          _ = 256 := by norm_num
      rw [show List.range 1 = [0] by decide, List.foldl_cons, List.foldl_nil, henc]
      have hshift : (v <<< bofs) >>> bofs = v := by
        rw [Nat.shiftLeft_eq, Nat.shiftRight_eq_div_pow]
        exact Nat.mul_div_cancel v (pow_pos (by norm_num) bofs)
      rw [hshift, hmask, Nat.zero_mul, Nat.zero_add, Nat.mod_eq_of_lt hv]

/-- Witness for C6's amended theorem: a two-byte zero-offset field and a
sub-byte field with nonzero offset both round-trip. -/
theorem touch_decode_encode_roundtrip_witness :
    touchFieldDecode 10 0 (touchFieldEncode 10 0 64) = 64 ∧
    touchFieldDecode 3 5 (touchFieldEncode 3 5 5) = 5 :=
  ⟨touch_decode_encode_roundtrip 10 0 64 (by decide) (Or.inl rfl),
   touch_decode_encode_roundtrip 3 5 5 (by decide) (Or.inr (by decide))⟩

/-- C6 counterexample: for the layout `bits = 10`, `bofs = 2` (a two-byte
field at a nonzero bit offset) the value `64 < 2 ^ 10` does not survive the
decode-encode round trip: the decoder yields `0`. -/
theorem touch_decode_encode_counterexample :
    (64 : Nat) < 2 ^ 10 ∧
    touchFieldDecode 10 2 (touchFieldEncode 10 2 64) = 0 ∧
    touchFieldDecode 10 2 (touchFieldEncode 10 2 64) ≠ 64 := by
  refine ⟨by norm_num, by decide, by decide⟩

/-- Clearing a flag with `x &= ~flag` leaves the flag bits zero. -/
theorem ldiff_and_self (x f : Nat) : (Nat.ldiff x f) &&& f = 0 := by
  apply Nat.eq_of_testBit_eq
  intro i
  simp [Nat.testBit_ldiff, Nat.testBit_and]

/-- C3: invoking the command executor with an expected mode different from
the current mode fails with `-EACCES` and performs no bus read or write:
the returned state (register file and transaction log included) is exactly
the input state. -/
theorem exec_cmd_wrong_mode (cd : CoreData) (mode : CyMode)
    (cmd_buf : List Nat) (rbs tms : Nat) (env : ExecEnv)
    (h : mode ≠ cd.mode) :
    cyttsp4_exec_cmd cd mode cmd_buf rbs tms env = (-EACCES, [], cd) := by
  have h1 : _cyttsp4_exec_cmd cd mode cmd_buf = (-EACCES, cd) := by
    simp [_cyttsp4_exec_cmd, h]
  simp [cyttsp4_exec_cmd, h1, EACCES, EBUSY]

/-- Witness for C3 at a concrete state: executor called expecting CaT mode
while the device session is Operational. -/
theorem exec_cmd_wrong_mode_witness :
    cyttsp4_exec_cmd ⟨CyMode.operational, 0, 0, 2, fun _ => 0, []⟩
        CyMode.cat [0x02] 2 500 ⟨true, id, true⟩ =
      (-EACCES, [], ⟨CyMode.operational, 0, 0, 2, fun _ => 0, []⟩) :=
  exec_cmd_wrong_mode _ CyMode.cat [0x02] 2 500 ⟨true, id, true⟩ (by decide)

/-- Arming a flag with `x |= flag` makes the flag test non-zero (for a
non-zero flag). -/
theorem or_and_self (x f : Nat) : (x ||| f) &&& f = f := by
  apply Nat.eq_of_testBit_eq
  intro i
  simp [Nat.testBit_or, Nat.testBit_and]
  tauto

/-- C2: with the expected mode current, (a) a clear completion bit on the
first status read makes the executor report `-EBUSY`, having performed only
that one bus read; (b) after the router resolves the busy wait, the command
is retried exactly once — a second busy is returned to the caller, with
exactly two status reads and no writes; (c) when the retried command
proceeds and completes and a non-zero response length `n` is requested, the
call succeeds and the response bytes are read starting exactly one byte
after the command offset. -/
theorem exec_cmd_busy_retry_response (cd : CoreData) (mode : CyMode)
    (cmd_buf : List Nat) (n tms : Nat) (env : ExecEnv) (cmd_ofs : Nat)
    (hmode : mode = cd.mode)
    (hofs : _get_cmd_offs cd mode = Except.ok cmd_ofs)
    (hbusy : cd.regs cmd_ofs &&& CY_CMD_COMPLETE_MASK = 0) :
    ((_cyttsp4_exec_cmd cd mode cmd_buf).1 = -EBUSY ∧
     (_cyttsp4_exec_cmd cd mode cmd_buf).2.log =
       cd.log ++ [BusOp.readOp cmd_ofs 1]) ∧
    (env.busyRouterClears = true →
     env.busyRegs cd.regs cmd_ofs &&& CY_CMD_COMPLETE_MASK = 0 →
     (cyttsp4_exec_cmd cd mode cmd_buf n tms env).1 = -EBUSY ∧
     (cyttsp4_exec_cmd cd mode cmd_buf n tms env).2.2.log =
       cd.log ++ [BusOp.readOp cmd_ofs 1, BusOp.readOp cmd_ofs 1]) ∧
    (env.busyRouterClears = true → env.cmdRouterClears = true →
     env.busyRegs cd.regs cmd_ofs &&& CY_CMD_COMPLETE_MASK ≠ 0 →
     0 < n → 0 < tms →
     (cyttsp4_exec_cmd cd mode cmd_buf n tms env).1 = 0 ∧
     (cyttsp4_exec_cmd cd mode cmd_buf n tms env).2.2.log =
       cd.log ++ [BusOp.readOp cmd_ofs 1, BusOp.readOp cmd_ofs 1] ++
       (if cmd_buf.length > 1 then
          [BusOp.writeOp (cmd_ofs + 1) cmd_buf.tail] else []) ++
       [BusOp.writeOp cmd_ofs [cmd_buf.getD 0 0 &&& CY_CMD_MASK],
        BusOp.readOp (cmd_ofs + 1) n]) := by
  have hne : ¬ mode ≠ cd.mode := by simp [hmode]
  have hf4 : CY_INT_EXEC_CMD ≠ 0 := by decide
  cases mode with
  | unknown => simp [_get_cmd_offs] at hofs
  | bootloader => simp [_get_cmd_offs] at hofs
  | sysinfo => simp [_get_cmd_offs] at hofs
  | cat =>
    simp only [_get_cmd_offs, Except.ok.injEq] at hofs
    subst hofs
    refine ⟨?_, ?_, ?_⟩
    · simp [_cyttsp4_exec_cmd, _get_cmd_offs, adapRead, hne, hbusy]
    · intro hr hb2
      simp [cyttsp4_exec_cmd, _cyttsp4_exec_cmd, _get_cmd_offs, adapRead,
        _cyttsp4_wait_cmd_exec, hne, hbusy, hr, hb2, or_and_self, hf4,
        EBUSY, ETIME]
    · intro hr hc hb3 hn htms
      by_cases hlen : 1 < cmd_buf.length <;>
        simp [cyttsp4_exec_cmd, _cyttsp4_exec_cmd, _get_cmd_offs, adapRead,
          adapWrite, _cyttsp4_wait_cmd_exec, hne, hbusy, hr, hc, hb3, hlen,
          or_and_self, hf4, Nat.pos_iff_ne_zero.mp hn,
          Nat.pos_iff_ne_zero.mp htms, EBUSY, ETIME]
  | operational =>
    simp only [_get_cmd_offs, Except.ok.injEq] at hofs
    subst hofs
    refine ⟨?_, ?_, ?_⟩
    · simp [_cyttsp4_exec_cmd, _get_cmd_offs, adapRead, hne, hbusy]
    · intro hr hb2
      simp [cyttsp4_exec_cmd, _cyttsp4_exec_cmd, _get_cmd_offs, adapRead,
        _cyttsp4_wait_cmd_exec, hne, hbusy, hr, hb2, or_and_self, hf4,
        EBUSY, ETIME]
    · intro hr hc hb3 hn htms
      by_cases hlen : 1 < cmd_buf.length <;>
        simp [cyttsp4_exec_cmd, _cyttsp4_exec_cmd, _get_cmd_offs, adapRead,
          adapWrite, _cyttsp4_wait_cmd_exec, hne, hbusy, hr, hc, hb3, hlen,
          or_and_self, hf4, Nat.pos_iff_ne_zero.mp hn,
          Nat.pos_iff_ne_zero.mp htms, EBUSY, ETIME]

/-- C9: when the sysinfo-mode wait fails on the first attempt and the
bytes read back from the base register equal the corrupted-application
signature, the startup run short-circuits: the persistent
invalid-touch-application fault is recorded, exactly one reset attempt was
made (the retry loop is not re-entered), the device counts as detected,
and the reported error is the wait's `-ETIME` — distinct from the
`-ENODEV` "not detected" report. -/
theorem startup_corrupted_app_short_circuit (env : StartupEnv) (invApp : Bool)
    (h0 : ¬ env.resetRc 0 < 0) (h1 : ¬ env.ldrExitRc 0 < 0)
    (h2 : env.sysinfoReached 0 = false)
    (h3 : env.baseRead 0 = some ldr_err_app) :
    cyttsp4_startup_ env invApp =
      { rc := -ETIME, invalidTouchApp := true, detected := true, resets := 1 } ∧
    (-ETIME : Int) ≠ -ENODEV := by
  refine ⟨?_, by decide⟩
  unfold cyttsp4_startup_ cyttsp4_startup_go cyttsp4_startup_attempt
  simp [h0, h1, h2, h3]

/-- Witness for C9: an environment whose first attempt resets cleanly,
writes the loader exit, times out waiting for SysInfo and reads back the
corrupted-application signature. -/
theorem startup_corrupted_app_short_circuit_witness :
    cyttsp4_startup_
        ⟨fun _ => 0, fun _ => 0, fun _ => false, fun _ => some ldr_err_app,
         fun _ => 0, fun _ => 0, fun _ => 0, fun _ => 0, fun _ => 0⟩ false =
      { rc := -ETIME, invalidTouchApp := true, detected := true, resets := 1 } :=
  (startup_corrupted_app_short_circuit _ false (by decide) (by decide)
    rfl rfl).1

/-- The middle-row loop writes one whole row per iteration, ending with
the loop counter advanced by the iteration count. -/
theorem writeMiddleRowsGo_spec (rowSize : Nat) : ∀ n cb,
    writeMiddleRowsGo rowSize n cb =
      ((List.range n).map (fun i => CfgOp.writeBlk (cb + i) rowSize), cb + n) := by
  intro n
  induction n with
  | zero => intro cb; simp [writeMiddleRowsGo]
  | succ n ih =>
    intro cb
    rw [writeMiddleRowsGo]
    simp only [ih (cb + 1)]
    rw [List.range_succ_eq_map, List.map_cons, List.map_map]
    refine congrArg₂ Prod.mk ?_ (by omega)
    rw [Nat.add_zero]
    refine congrArg₂ List.cons rfl ?_
    refine List.map_congr_left ?_
    intro i _
    simp only [Function.comp]
    congr 1
    omega

/-- C5 (amended): the scenario trace — config write of 60 bytes at offset
100 with row size 128 performs exactly one read-modify-write of row 0
(read of the preserved 100-byte prefix, write of the full 128-byte row,
modifying offsets 100-127) followed by one 32-byte write of row 1
(offsets 128-159); in general an unaligned first row is handled by
read-modify-write, middle rows are written whole, and a final partial row
is written with a partial-length row write without a preceding read;
after the row writes the block CRC is recomputed (verify command) and the
stored CRC field is rewritten only if the recomputed value differs. -/
theorem write_config_rows_and_crc :
    (cyttsp4_write_config_common 128 100 60 =
      [CfgOp.readBlk 0 100, CfgOp.writeBlk 0 128, CfgOp.writeBlk 1 32]) ∧
    (∀ rs o l, 0 < rs → o % rs ≠ 0 → o / rs < (o + l) / rs →
      cyttsp4_write_config_common rs o l =
        [CfgOp.readBlk (o / rs) (o % rs), CfgOp.writeBlk (o / rs) rs] ++
        (List.range ((o + l) / rs - (o / rs + 1))).map
          (fun i => CfgOp.writeBlk (o / rs + 1 + i) rs) ++
        [CfgOp.writeBlk ((o + l) / rs) ((o + l) % rs)]) ∧
    (∀ rs o l, o % rs ≠ 0 → o / rs = (o + l) / rs →
      cyttsp4_write_config_common rs o l =
        [CfgOp.readBlk (o / rs) (o % rs),
         CfgOp.writeBlk (o / rs) (o % rs + l)]) ∧
    (∀ rs o l, o % rs = 0 →
      cyttsp4_write_config_common rs o l =
        (List.range ((o + l) / rs - o / rs)).map
          (fun i => CfgOp.writeBlk (o / rs + i) rs) ++
        [CfgOp.writeBlk ((o + l) / rs) ((o + l) % rs)]) ∧
    (∀ rs o l co cn cold, ¬ o + l > co + 2 →
      (cn = cold →
        cyttsp4_write_config true rs o l co cn cold =
          (0, CfgEvent.getLength ::
            (cyttsp4_write_config_common rs o l).map CfgEvent.rowOp ++
            [CfgEvent.verifyCrc])) ∧
      (cn ≠ cold →
        cyttsp4_write_config true rs o l co cn cold =
          (0, CfgEvent.getLength ::
            (cyttsp4_write_config_common rs o l).map CfgEvent.rowOp ++
            [CfgEvent.verifyCrc] ++
            (cyttsp4_write_config_common rs co 2).map CfgEvent.rowOp))) := by
  refine ⟨by decide, ?_, ?_, ?_, ?_⟩
  · intro rs o l h0 hco hlt
    have hne : ¬ o / rs = (o + l) / rs := by omega
    have hmlt : o % rs < rs := Nat.mod_lt o h0
    simp only [cyttsp4_write_config_common, writeMiddleRows,
      writeMiddleRowsGo_spec, if_neg hco, if_neg hne]
    rw [if_pos (by omega)]
    rw [show o % rs + (rs - o % rs) = rs by omega]
  · intro rs o l hco heq
    have hgt : ¬ o / rs + 1 + ((o + l) / rs - (o / rs + 1)) = (o + l) / rs := by
      omega
    simp only [cyttsp4_write_config_common, writeMiddleRows,
      writeMiddleRowsGo_spec, if_neg hco, if_pos heq]
    rw [if_neg hgt, show (o + l) / rs - (o / rs + 1) = 0 by omega]
    simp
  · intro rs o l hco
    have hle : o / rs ≤ (o + l) / rs :=
      Nat.div_le_div_right (Nat.le_add_right o l)
    simp only [cyttsp4_write_config_common, writeMiddleRows,
      writeMiddleRowsGo_spec, if_pos hco]
    rw [if_pos (by omega)]
    simp
  · intro rs o l co cn cold hbound
    constructor
    · intro hcrc
      simp [cyttsp4_write_config, hbound, hcrc]
    · intro hcrc
      simp [cyttsp4_write_config, hbound, hcrc]

/-- Witness for C5's amended theorem: the general clauses evaluated at the
scenario inputs (row size 128: unaligned multi-row write at offset 100,
unaligned single-row write, aligned write, and both CRC outcomes at a CRC
field offset of 160). -/
theorem write_config_rows_and_crc_witness :
    cyttsp4_write_config_common 128 100 60 =
      [CfgOp.readBlk 0 100, CfgOp.writeBlk 0 128, CfgOp.writeBlk 1 32] ∧
    cyttsp4_write_config_common 128 100 20 =
      [CfgOp.readBlk 0 100, CfgOp.writeBlk 0 120] ∧
    cyttsp4_write_config_common 128 0 60 = [CfgOp.writeBlk 0 60] ∧
    cyttsp4_write_config true 128 100 60 160 0xABCD 0xABCD =
      (0, CfgEvent.getLength ::
        (cyttsp4_write_config_common 128 100 60).map CfgEvent.rowOp ++
        [CfgEvent.verifyCrc]) ∧
    cyttsp4_write_config true 128 100 60 160 0xABCD 0x1234 =
      (0, CfgEvent.getLength ::
        (cyttsp4_write_config_common 128 100 60).map CfgEvent.rowOp ++
        [CfgEvent.verifyCrc] ++
        (cyttsp4_write_config_common 128 160 2).map CfgEvent.rowOp) := by
  refine ⟨?_, ?_, ?_, ?_, ?_⟩
  · have h := write_config_rows_and_crc.2.1 128 100 60 (by decide) (by decide)
      (by decide)
    simpa using h
  · have h := write_config_rows_and_crc.2.2.1 128 100 20 (by decide) (by decide)
    simpa using h
  · have h := write_config_rows_and_crc.2.2.2.1 128 0 60 (by decide)
    simpa using h
  · exact (write_config_rows_and_crc.2.2.2.2 128 100 60 160 0xABCD 0xABCD
      (by decide)).1 rfl
  · exact (write_config_rows_and_crc.2.2.2.2 128 100 60 160 0xABCD 0x1234
      (by decide)).2 (by decide)

/-- C5 counterexample: the claim's general clause — "partial first and
last rows are handled by read-modify-write against the full row" — fails
for the last row at the claim's own scenario input: in the trace of the
60-byte write at offset 100 with row size 128, the partial last row (row
1, offsets 128-159) receives a single 32-byte write; the trace contains no
read of row 1 and no full-row write of row 1. -/
theorem write_config_partial_last_row_counterexample :
    cyttsp4_write_config_common 128 100 60 =
      [CfgOp.readBlk 0 100, CfgOp.writeBlk 0 128, CfgOp.writeBlk 1 32] ∧
    (cyttsp4_write_config_common 128 100 60).countP
      (fun op => match op with
        | CfgOp.readBlk 1 _ => true
        | _ => false) = 0 ∧
    CfgOp.writeBlk 1 128 ∉ cyttsp4_write_config_common 128 100 60 := by
  refine ⟨by decide, by decide, by decide⟩

/-- C1 counterexample: from a fresh bootloader state (idle counter zero,
no startup queued), 4 consecutive bootloader-idle interrupt occurrences
leave the deferred-restart machinery untouched — no startup work is
scheduled, refuting the claim that 4 consecutive occurrences trigger a
deferred restart.  (The counter check `heartbeat_count > 3` runs before the
increment, so the counter holds 0..3 on the first four occurrences.) -/
theorem irq_bootloader_idle_4_no_restart :
    (irqIdleIter ⟨CyMode.bootloader, 0, StartupState.stNone, 0⟩ 4).startupWorkScheduled
      = 0 ∧
    (irqIdleIter ⟨CyMode.bootloader, 0, StartupState.stNone, 0⟩ 4).startupState
      = StartupState.stNone := by
  decide

/-- C1 (amended): from a fresh bootloader state, fewer than 5 consecutive
bootloader-idle occurrences never schedule a deferred restart; the 5th
consecutive occurrence schedules it exactly once, with the idle counter
reset to zero afterward. -/
theorem irq_bootloader_idle_restart_after_5 :
    (∀ n : Nat, n < 5 →
      (irqIdleIter ⟨CyMode.bootloader, 0, StartupState.stNone, 0⟩ n).startupWorkScheduled
        = 0) ∧
    (irqIdleIter ⟨CyMode.bootloader, 0, StartupState.stNone, 0⟩ 5).startupWorkScheduled
      = 1 ∧
    (irqIdleIter ⟨CyMode.bootloader, 0, StartupState.stNone, 0⟩ 5).heartbeatCount
      = 0 ∧
    (irqIdleIter ⟨CyMode.bootloader, 0, StartupState.stNone, 0⟩ 5).startupState
      = StartupState.stQueued := by
  refine ⟨?_, by decide, by decide, by decide⟩
  intro n hn
  interval_cases n <;> decide

/-- Witness for C1's amended theorem: 4 consecutive idle occurrences (the
largest count below 5) schedule nothing. -/
theorem irq_bootloader_idle_restart_after_5_witness :
    (irqIdleIter ⟨CyMode.bootloader, 0, StartupState.stNone, 0⟩ 4).startupWorkScheduled
      = 0 :=
  irq_bootloader_idle_restart_after_5.1 4 (by decide)

/-- C4: the exclusive-access arbiter never grants the token while a holder
exists: (i) any event whose outcome is `acquired` requires the token to be
free beforehand and leaves the requester as the holder; (ii) while some
caller holds the token, a second `tryAcquire` blocks and a recheck leaves
the waiter blocked with the state unchanged; (iii) a waiter whose bounded
wait elapses gets `timedOut` without acquiring — the holder is untouched;
(iv) the holder is only ever cleared by its own `release`; (v) `release`
by a non-holder fails with no state change. -/
theorem arbiter_mutual_exclusion :
    (∀ (st : ArbState) (e : ArbEvent),
      (arbStep st e).2 = ArbOutcome.acquired → st.exclusive_dev = none) ∧
    (∀ (st : ArbState) (h o : Nat), st.exclusive_dev = some h →
      (arbStep st (ArbEvent.tryAcquire o)).2 = ArbOutcome.blocked ∧
      (arbStep st (ArbEvent.tryAcquire o)).1.exclusive_dev = some h ∧
      arbStep st (ArbEvent.wakeRecheck o) = (st, ArbOutcome.stillBlocked)) ∧
    (∀ (st : ArbState) (o : Nat),
      (arbStep st (ArbEvent.timeoutEv o)).2 = ArbOutcome.timedOut ∧
      (arbStep st (ArbEvent.timeoutEv o)).1.exclusive_dev = st.exclusive_dev) ∧
    (∀ (st : ArbState) (e : ArbEvent) (h : Nat), st.exclusive_dev = some h →
      (arbStep st e).1.exclusive_dev = some h ∨ e = ArbEvent.release h) ∧
    (∀ (st : ArbState) (o : Nat), st.exclusive_dev ≠ some o →
      arbStep st (ArbEvent.release o) = (st, ArbOutcome.notOwner)) := by
  refine ⟨?_, ?_, ?_, ?_, ?_⟩
  · intro st e hacq
    cases e with
    | tryAcquire o =>
      by_cases hc : st.exclusive_dev = none ∧ st.exclusive_waits = 0
      · exact hc.1
      · simp [arbStep, hc] at hacq
    | wakeRecheck o =>
      cases hdev : st.exclusive_dev with
      | none => rfl
      | some x => simp [arbStep, hdev] at hacq
    | timeoutEv o => simp [arbStep] at hacq
    | release o =>
      by_cases hc : st.exclusive_dev = some o <;>
        simp [arbStep, hc] at hacq
  · intro st h o hh
    refine ⟨?_, ?_, ?_⟩
    · simp [arbStep, hh]
    · simp [arbStep, hh]
    · simp [arbStep, hh]
  · intro st o
    exact ⟨rfl, rfl⟩
  · intro st e h hh
    cases e with
    | tryAcquire o =>
      left
      by_cases hc : st.exclusive_dev = none ∧ st.exclusive_waits = 0
      · rw [hh] at hc; simp at hc
      · simp [arbStep, hc, hh]
    | wakeRecheck o => left; simp [arbStep, hh]
    | timeoutEv o => left; simpa [arbStep] using hh
    | release o =>
      by_cases ho : o = h
      · right; rw [ho]
      · left
        have ho' : ¬ h = o := fun hc => ho hc.symm
        simp [arbStep, hh, ho']
  · intro st o hno
    simp [arbStep, hno]

/-- Witness for C4 at concrete states: caller 1 holds the token; caller 2
blocks, stays blocked on a recheck, then times out without acquiring, and
caller 2's release attempt fails. -/
theorem arbiter_mutual_exclusion_witness :
    (arbStep ⟨some 1, 0⟩ (ArbEvent.tryAcquire 2)).2 = ArbOutcome.blocked ∧
    arbStep ⟨some 1, 1⟩ (ArbEvent.wakeRecheck 2) =
      (⟨some 1, 1⟩, ArbOutcome.stillBlocked) ∧
    (arbStep ⟨some 1, 1⟩ (ArbEvent.timeoutEv 2)).2 = ArbOutcome.timedOut ∧
    (arbStep ⟨some 1, 1⟩ (ArbEvent.timeoutEv 2)).1.exclusive_dev = some 1 ∧
    arbStep ⟨some 1, 0⟩ (ArbEvent.release 2) = (⟨some 1, 0⟩, ArbOutcome.notOwner) := by
  refine ⟨(arbiter_mutual_exclusion.2.1 ⟨some 1, 0⟩ 1 2 rfl).1,
    (arbiter_mutual_exclusion.2.1 ⟨some 1, 1⟩ 1 2 rfl).2.2,
    (arbiter_mutual_exclusion.2.2.1 ⟨some 1, 1⟩ 2).1,
    ?_,
    arbiter_mutual_exclusion.2.2.2.2 ⟨some 1, 0⟩ 2 (by decide)⟩
  have h := (arbiter_mutual_exclusion.2.2.1 ⟨some 1, 1⟩ 2).2
  simpa using h

/-- Witness for C2: a CaT command with one parameter byte against a device
whose command register is initially busy and reports completion after the
router-resolved wait. -/
theorem exec_cmd_busy_retry_response_witness :
    (cyttsp4_exec_cmd ⟨CyMode.cat, 0, 0, 5, fun _ => 0, []⟩ CyMode.cat
        [3, 7] 2 500 ⟨true, fun _ a => if a = 2 then 0x40 else 0, true⟩).1 = 0 ∧
    (cyttsp4_exec_cmd ⟨CyMode.cat, 0, 0, 5, fun _ => 0, []⟩ CyMode.cat
        [3, 7] 2 500 ⟨true, fun _ a => if a = 2 then 0x40 else 0, true⟩).2.2.log =
      [BusOp.readOp 2 1, BusOp.readOp 2 1, BusOp.writeOp 3 [7],
       BusOp.writeOp 2 [3], BusOp.readOp 3 2] := by
  have h := (exec_cmd_busy_retry_response ⟨CyMode.cat, 0, 0, 5, fun _ => 0, []⟩
    CyMode.cat [3, 7] 2 500 ⟨true, fun _ a => if a = 2 then 0x40 else 0, true⟩
    CY_REG_CAT_CMD rfl rfl (by decide)).2.2 rfl rfl (by decide)
    (by decide) (by decide)
  simpa [CY_REG_CAT_CMD, CY_CMD_MASK] using h

/-- C8: each of the three blocking waits clears its pending flag before
returning its timeout error: the command-complete wait and the
sysinfo-mode wait clear their flag when returning `-ETIME`, and the
mode-change wait in `set_mode` clears `CY_INT_MODE_CHANGE` when the wait
elapses (valid target mode, router never completes the change). -/
theorem timed_out_waits_clear_pending_flags :
    (∀ (cd : CoreData) (r : Bool),
      (_cyttsp4_wait_cmd_exec cd r).1 = -ETIME →
      (_cyttsp4_wait_cmd_exec cd r).2.intStatus &&& CY_INT_EXEC_CMD = 0) ∧
    (∀ (cd : CoreData) (r : Bool),
      (cyttsp4_wait_sysinfo_mode cd r).1 = -ETIME →
      (cyttsp4_wait_sysinfo_mode cd r).2.intStatus &&& CY_INT_MODE_CHANGE = 0) ∧
    (∀ (cd : CoreData) (m : CyMode),
      (m = CyMode.operational ∨ m = CyMode.sysinfo ∨ m = CyMode.cat) →
      (set_mode cd m false).1 = -EINVAL ∧
      (set_mode cd m false).2.intStatus &&& CY_INT_MODE_CHANGE = 0) := by
  refine ⟨?_, ?_, ?_⟩
  · intro cd r h
    unfold _cyttsp4_wait_cmd_exec at *
    split at h
    · next hc => simp_all [ETIME]
    · split at h <;> simp_all [ldiff_and_self]
  · intro cd r h
    unfold cyttsp4_wait_sysinfo_mode at *
    split at h
    · simp_all [ETIME]
    · split at h <;> simp_all [ldiff_and_self]
  · intro cd m hm
    rcases hm with h | h | h <;>
      simp [h, set_mode, ldiff_and_self]

/-- Witness for C8 at concrete states: a pending command wait, a pending
mode-change wait and a `set_mode` call that all time out. -/
theorem timed_out_waits_clear_pending_flags_witness :
    ((_cyttsp4_wait_cmd_exec ⟨CyMode.cat, CY_INT_EXEC_CMD, 0, 2, fun _ => 0, []⟩
        false).2.intStatus &&& CY_INT_EXEC_CMD = 0) ∧
    ((cyttsp4_wait_sysinfo_mode
        ⟨CyMode.bootloader, CY_INT_MODE_CHANGE, 0, 2, fun _ => 0, []⟩
        false).2.intStatus &&& CY_INT_MODE_CHANGE = 0) ∧
    ((set_mode ⟨CyMode.sysinfo, 0, 0, 2, fun _ => 0, []⟩ CyMode.operational
        false).2.intStatus &&& CY_INT_MODE_CHANGE = 0) := by
  refine ⟨timed_out_waits_clear_pending_flags.1 _ false (by decide),
    timed_out_waits_clear_pending_flags.2.1 _ false (by decide),
    (timed_out_waits_clear_pending_flags.2.2 _ CyMode.operational
      (Or.inl rfl)).2⟩

/-- Witness for C10's theorem at a concrete state and header bytes. -/
theorem handshake_mode_change_no_write_witness :
    (cyttsp4_handshake ⟨CyMode.operational, 0, 0, 2, fun _ => 0, []⟩ 0x18 =
      (0, ⟨CyMode.operational, 0, 0, 2, fun _ => 0, []⟩)) ∧
    (cyttsp4_handshake ⟨CyMode.operational, 0, 0, 2, fun _ => 0, []⟩ 0x10).2.log =
      [BusOp.writeOp CY_REG_BASE [0x90]] := by
  refine ⟨(handshake_mode_change_no_write _ 0x18).1 (by decide), ?_⟩
  have h := ((handshake_mode_change_no_write
    ⟨CyMode.operational, 0, 0, 2, fun _ => 0, []⟩ 0x10).2 (by decide)).2
  simpa using h

end Cyttsp4
